import Mathlib

/-!
Verification of the retrieval-and-ranking pipeline of the DeskResearcher
repository (`app/research_engine.py`), as a shallow embedding in Lean.

External collaborators (the arXiv HTTP API, the Qdrant vector store, the
Groq summarization API, the embedding encoder) are modelled by explicit
outcome/state parameters; the Python code of `ResearchEngine` is translated
function by function.  Python strings are Lean `String`s; Python string
comparison (code-point lexicographic) is embedded by a structural
comparison on the underlying character lists; Python's stable
`list.sort(key=..., reverse=True)` is embedded by a stable insertion sort
with the corresponding descending relation; float scores are embedded as
rationals.
-/

namespace DeskResearch

set_option maxRecDepth 100000

/-! ### Python string primitives -/

/-- The whitespace characters recognised by Python's `str.split()` /
`str.strip()`. -/
def pyIsSpace (c : Char) : Bool :=
  c == ' ' || c == '\t' || c == '\n' || c == '\r' || c == '\x0b' || c == '\x0c'

/-- Helper for `pyWords`: splits a character list into maximal runs of
non-whitespace characters (the accumulator holds the current word,
reversed). -/
def wordsAux : List Char → List Char → List (List Char)
  | [], acc => if acc.isEmpty then [] else [acc.reverse]
  | c :: cs, acc =>
      if pyIsSpace c then
        if acc.isEmpty then wordsAux cs [] else acc.reverse :: wordsAux cs []
      else wordsAux cs (c :: acc)

/-- Python `s.split()` (no separator): whitespace-delimited words, empty
strings dropped. -/
def pyWords (s : String) : List String :=
  (wordsAux s.data []).map (fun cs => String.mk cs)

/-- Python `' '.join(s.split())`: whitespace normalization as used by the
fetcher (also subsumes the `strip()` the code applies first). -/
def normWS (s : String) : String :=
  String.intercalate " " (pyWords s)

/-- Python `s.strip()`: remove leading and trailing whitespace. -/
def pyStrip (s : String) : String :=
  String.mk (((s.data.dropWhile pyIsSpace).reverse.dropWhile pyIsSpace).reverse)

/-- Python `s[:n]` on strings: the first `n` code points. -/
def pyTake (n : Nat) (s : String) : String :=
  String.mk (s.data.take n)

/-- If `sep` is a leading segment of `l`, return the remainder of `l`
after it. -/
def dropSeg : List Char → List Char → Option (List Char)
  | [], l => some l
  | _ :: _, [] => none
  | a :: as, x :: xs => if a == x then dropSeg as xs else none

/-- Fuel-indexed worker for `pySplit`; with fuel at least the length of the
input (and a nonempty separator) it computes Python's `str.split(sep)`. -/
def splitFuel (sep : List Char) : Nat → List Char → List Char → List (List Char)
  | _, [], acc => [acc.reverse]
  | 0, l, acc => [acc.reverse ++ l]
  | fuel + 1, x :: xs, acc =>
      match dropSeg sep (x :: xs) with
      | some rest => acc.reverse :: splitFuel sep fuel rest []
      | none => splitFuel sep fuel xs (x :: acc)

/-- Python `s.split(sep)` for a nonempty separator `sep`. -/
def pySplit (sep s : String) : List String :=
  (splitFuel sep.data s.data.length s.data []).map (fun cs => String.mk cs)

/-- Python string `<` (code-point lexicographic), structurally on the
character lists. -/
def charsLtB : List Char → List Char → Bool
  | _, [] => false
  | [], _ :: _ => true
  | a :: as, b :: bs => if a < b then true else if b < a then false else charsLtB as bs

/-! ### Stable descending sort by a string key

Python's `l.sort(key=..., reverse=True)` is a stable sort that orders the
list weakly decreasing by key and keeps elements with equal keys in their
original relative order.  `List.insertionSort` with the relation
`keyDescRel key` has exactly this behaviour. -/

/-- Relation of the descending sort: `keyDescRel key a b` holds when `a` is allowed to precede `b` in the
descending order: the key of `a` is not smaller than the key of `b`. -/
def keyDescRel {α : Type} (key : α → String) (a b : α) : Prop :=
  charsLtB (key a).data (key b).data = false

instance {α : Type} (key : α → String) : DecidableRel (keyDescRel key) :=
  fun _ _ => inferInstanceAs (Decidable (_ = false))

/-- Python `l.sort(key=..., reverse=True)` for a string-valued key. -/
def sortByKeyDesc {α : Type} (key : α → String) (l : List α) : List α :=
  List.insertionSort (keyDescRel key) l

/-! ### Data model (`research_engine.py`) -/

/-- A normalized document record as produced by `fetch_arxiv_papers`
(the dict `{'title', 'content', 'url', 'source', 'published_date'}`). -/
structure Paper where
  title : String
  content : String
  url : String
  source : String
  published_date : String
deriving DecidableEq

/-- One hit returned by the Qdrant `search` call: the stored payload plus a
similarity score.  `published_date` is optional because the code reads it
with `hit.payload.get('published_date', 'unknown')`. -/
structure Hit where
  title : String
  content : String
  url : String
  source : String
  published_date : Option String
  score : ℚ
deriving DecidableEq

/-- A document dict in a `search_relevant_docs` result: payload fields plus
`relevance_score`. -/
structure ScoredDoc where
  title : String
  content : String
  url : String
  source : String
  published_date : String
  relevance_score : ℚ
deriving DecidableEq

/-! ### Corpus fetcher (`fetch_arxiv_papers`) -/

/-- Outcome of the HTTP GET against the arXiv API: either a response body
(the code only looks at `response.text`), or any failure of the call
(network error, timeout, or non-success status via `raise_for_status`). -/
inductive FetchOutcome
  | success (body : String)
  | failure
deriving DecidableEq

/-- Python `entry.split(openTag)[1].split(closeTag)[0]`: `none` exactly when
`entry.split(openTag)[1]` raises `IndexError` (fewer than two pieces), which
the code turns into skipping the entry. -/
def extractTag (openTag closeTag entry : String) : Option String :=
  match pySplit openTag entry with
  | _ :: afterOpen :: _ => some ((pySplit closeTag afterOpen).headD "")
  | _ => none

/-- The per-entry parsing of `fetch_arxiv_papers`: extract title, summary,
link and published date, normalizing whitespace, truncating the summary to
800 characters and keeping the date text before the first `'T'`.  Any
failed extraction aborts the whole entry (`except: continue`). -/
def parseEntry (entry : String) : Option Paper := do
  let rawTitle ← extractTag "<title>" "</title>" entry
  let rawSummary ← extractTag "<summary>" "</summary>" entry
  let rawLink ← extractTag "<id>" "</id>" entry
  let rawPublished ← extractTag "<published>" "</published>" entry
  some
    { title := normWS (pyStrip rawTitle)
    , content := pyTake 800 (normWS (pyStrip rawSummary))
    , url := pyStrip rawLink
    , source := "arXiv"
    , published_date := (pySplit "T" (pyStrip rawPublished)).headD "" }

/-- Embedding of `fetch_arxiv_papers`: on a successful API call, split the body on
`<entry>`, parse each entry after the first piece, drop entries that fail
to parse, and sort by `published_date` descending; on any exception return
`[]`. -/
def fetch_arxiv_papers : FetchOutcome → List Paper
  | .failure => []
  | .success body =>
      sortByKeyDesc (fun p => p.published_date)
        (((pySplit "<entry>" body).drop 1).filterMap parseEntry)

/-! ### Vector index model (Qdrant) and `_setup_collection` / `store_in_qdrant`

The Qdrant service itself is an external collaborator; its collection
state and the semantics of `get_collection` / `create_collection` /
`upsert` are modelled from the spec's interface contract (§4.3, §6):
collections are looked up by name, `create_collection` adds a named
collection, and `upsert` writes or overwrites points by id. -/

/-- Distance metric of a collection (`Distance.COSINE` in the code). -/
inductive Distance
  | cosine
deriving DecidableEq

/-- Vector configuration of a collection (`VectorParams(size, distance)`). -/
structure VectorParams where
  size : Nat
  distance : Distance
deriving DecidableEq

/-- Payload stored with a point (the five document fields). -/
structure PointPayload where
  title : String
  content : String
  url : String
  source : String
  published_date : String
deriving DecidableEq

/-- A Qdrant point (`PointStruct(id, vector, payload)`). -/
structure QPoint where
  id : Nat
  vector : List ℚ
  payload : PointPayload
deriving DecidableEq

/-- Modelled from the spec: the observable state of the Qdrant store — the
named collections with their vector configuration, and the stored points
tagged with their collection name. -/
structure QdrantState where
  collections : List (String × VectorParams)
  points : List (String × QPoint)
deriving DecidableEq

/-- Modelled from the spec: `client.get_collection(name)` — `some` the
collection's parameters when the named collection exists, `none` (an
exception in the Python client) otherwise. -/
def get_collection (s : QdrantState) (name : String) : Option VectorParams :=
  (s.collections.find? (fun c => c.1 == name)).map (fun c => c.2)

/-- Modelled from the spec: `client.create_collection(name, vectors_config)`
adds a collection with the given name and parameters. -/
def create_collection (s : QdrantState) (name : String) (ps : VectorParams) :
    QdrantState :=
  { s with collections := s.collections ++ [(name, ps)] }

/-- Embedding of `_setup_collection`: try `get_collection("research_docs")`; on failure
create the collection with size 384 and cosine distance. -/
def _setup_collection (s : QdrantState) : QdrantState :=
  match get_collection s "research_docs" with
  | some _ => s
  | none => create_collection s "research_docs" ⟨384, Distance.cosine⟩

/-- Modelled from the spec: `client.upsert(collection_name, points)` writes
or overwrites points by id within the named collection. -/
def upsert (s : QdrantState) (name : String) (pts : List QPoint) : QdrantState :=
  let kept := s.points.filter
    (fun cp => !(cp.1 == name && pts.any (fun q => q.id == cp.2.id)))
  { s with points := kept ++ pts.map (fun q => (name, q)) }

/-- Embedding of `store_in_qdrant`: short-circuit on an empty document list; otherwise
embed `f"{title} {content}"` for each document (`embed` abstracts the
FastEmbed encoder, a deterministic text-to-vector function per §4.2) and
upsert one point per document with ids `0..n-1`. -/
def store_in_qdrant (embed : String → List ℚ) (s : QdrantState)
    (documents : List Paper) : QdrantState :=
  if documents.isEmpty then s
  else
    let texts := documents.map (fun doc => doc.title ++ " " ++ doc.content)
    let embeddings := texts.map embed
    let points := (documents.zip embeddings).enum.map (fun ie =>
      { id := ie.1
      , vector := ie.2.2
      , payload :=
        { title := ie.2.1.title
        , content := ie.2.1.content
        , url := ie.2.1.url
        , source := ie.2.1.source
        , published_date := ie.2.1.published_date } : QPoint })
    upsert s "research_docs" points

/-! ### Ranker (`search_relevant_docs`) -/

/-- The relevance gate threshold `0.3`. -/
def relevanceThreshold : ℚ := mkRat 3 10

/-- Descending order by a rational-valued key (for score-ordered search
results). -/
def scoreDescRel {α : Type} (key : α → ℚ) (a b : α) : Prop :=
  key b ≤ key a

instance {α : Type} (key : α → ℚ) : DecidableRel (scoreDescRel key) :=
  fun _ _ => inferInstanceAs (Decidable (_ ≤ _))

/-- Modelled from the spec: `client.search(collection, query_vector, limit)`
returns up to `limit` hits ordered by score descending (§4.3).  The
abstract candidate pool for the query is the `candidates` parameter. -/
def qdrantSearch (candidates : List Hit) (limit : Nat) : List Hit :=
  (List.insertionSort (scoreDescRel (fun h => h.score)) candidates).take limit

/-- The dict built from one search hit in `search_relevant_docs`, with the
`'unknown'` default for a missing `published_date` payload key. -/
def toScoredDoc (h : Hit) : ScoredDoc :=
  { title := h.title
  , content := h.content
  , url := h.url
  , source := h.source
  , published_date := h.published_date.getD "unknown"
  , relevance_score := h.score }

/-- The list `relevant_docs` after the relevance gate: hits of the
`limit = top_k * 2` search mapped to dicts, keeping only
`relevance_score > 0.3`. -/
def gateSurvivors (candidates : List Hit) (top_k : Nat) : List ScoredDoc :=
  ((qdrantSearch candidates (top_k * 2)).map toScoredDoc).filter
    (fun doc => relevanceThreshold < doc.relevance_score)

/-- Embedding of `search_relevant_docs`: embed the query, search Qdrant with limit
`top_k * 2`, keep hits scoring above the threshold, sort by date descending
(stable), and return the first `top_k`.  The `outcome` parameter is `none`
when any step of the `try` block raises (the `except` branch returns `[]`),
and `some candidates` with the hit pool otherwise. -/
def search_relevant_docs (outcome : Option (List Hit)) (top_k : Nat) :
    List ScoredDoc :=
  match outcome with
  | none => []
  | some candidates =>
      (sortByKeyDesc (fun doc => doc.published_date)
        (gateSurvivors candidates top_k)).take top_k

/-! ### Report generation (`generate_report`) -/

/-- Outcome of the Groq chat-completions POST: generated content, an HTTP
error (with the message extracted from the error detail or `str(e)`), a
timeout, or any other exception (including a malformed response body, where
indexing `data['choices'][0]['message']['content']` raises). -/
inductive GroqOutcome
  | ok (content : String)
  | httpError (msg : String)
  | timeout
  | unexpected (msg : String)
deriving DecidableEq

/-- Embedding of `generate_report`: return the generated content on success, and an
explanatory error string on each failure branch. -/
def generate_report : GroqOutcome → String
  | .ok content => content
  | .httpError msg => "Error generating report: " ++ msg
  | .timeout => "Error: AI service took too long to respond. Please try again."
  | .unexpected msg => "Error generating report: " ++ msg

/-! ### Orchestrator (`run_full_research`) -/

/-- Outcomes of the three external calls made during one
`run_full_research` run: the arXiv fetch, the Qdrant search (as seen by
`search_relevant_docs`, after `store_in_qdrant` has written this run's
points), and the Groq call. -/
structure Env where
  arxiv : FetchOutcome
  qdrant : Option (List Hit)
  groq : GroqOutcome

/-- The result dict of `run_full_research`.  The error branch sets
`status`, `message`, `report=None`, `sources=[]`; the success branch sets
`status`, `report`, `sources`, `total_papers`, `relevant_papers`.  Keys
absent in a branch are `none`. -/
structure ResearchResult where
  status : String
  message : Option String
  report : Option String
  sources : List ScoredDoc
  total_papers : Option Nat
  relevant_papers : Option Nat
deriving DecidableEq

/-- Embedding of `run_full_research`: fetch (max_results=20); if no papers, return the
error dict; otherwise store in Qdrant, rank with `top_k=10`, generate the
report, and return the success dict with the top 8 sources. -/
def run_full_research (env : Env) : ResearchResult :=
  let papers := fetch_arxiv_papers env.arxiv
  if papers.isEmpty then
    { status := "error"
    , message := some "No papers found in arXiv"
    , report := none
    , sources := []
    , total_papers := none
    , relevant_papers := none }
  else
    let relevant := search_relevant_docs env.qdrant 10
    let report := generate_report env.groq
    { status := "success"
    , message := none
    , report := some report
    , sources := relevant.take 8
    , total_papers := some papers.length
    , relevant_papers := some relevant.length }

/-! ### Date-format predicate (for the spec's `YYYY-MM-DD`) -/

/-- Decimal digit test. -/
def isDigitC (c : Char) : Bool := '0' ≤ c && c ≤ '9'

/-- The `YYYY-MM-DD` shape: ten characters, digits except for dashes at
positions 4 and 7. -/
def isYYYYMMDD (s : String) : Bool :=
  match s.data with
  | [y1, y2, y3, y4, s1, m1, m2, s2, d1, d2] =>
      isDigitC y1 && isDigitC y2 && isDigitC y3 && isDigitC y4 &&
      s1 == '-' && isDigitC m1 && isDigitC m2 && s2 == '-' &&
      isDigitC d1 && isDigitC d2
  | _ => false

/-- Property of a string that begins with `"Error"`. -/
def startsWithError (s : String) : Prop :=
  s.data.take 5 = "Error".data

/-! ### Order lemmas for `charsLtB` -/

theorem relevanceThreshold_eq : relevanceThreshold = 3 / 10 := by
  norm_num [relevanceThreshold, mkRat]

theorem charsLtB_irrefl : ∀ x : List Char, charsLtB x x = false
  | [] => rfl
  | a :: as => by
      simp only [charsLtB, lt_irrefl a, if_false]
      exact charsLtB_irrefl as

theorem charsLtB_asymm : ∀ {x y : List Char}, charsLtB x y = true → charsLtB y x = false
  | x, [], h => by cases x <;> simp [charsLtB] at h
  | [], _ :: _, _ => rfl
  | a :: as, b :: bs, h => by
      simp only [charsLtB] at h ⊢
      rcases lt_trichotomy a b with hab | hab | hab
      · simp [hab, not_lt_of_gt hab]
      · subst hab
        simp only [lt_irrefl, if_false] at h ⊢
        exact charsLtB_asymm h
      · simp [hab, not_lt_of_gt hab] at h

theorem charsLtB_conn :
    ∀ (x y z : List Char), charsLtB x z = true →
      charsLtB x y = true ∨ charsLtB y z = true
  | x, _, [], h => by cases x <;> simp [charsLtB] at h
  | [], [], _ :: _, _ => Or.inr rfl
  | [], _ :: _, _ :: _, _ => Or.inl rfl
  | _ :: _, [], _ :: _, _ => Or.inr rfl
  | a :: as, b :: bs, c :: cs, h => by
      simp only [charsLtB] at h ⊢
      rcases lt_trichotomy a b with hab | hab | hab
      · exact Or.inl (by simp [hab])
      · subst hab
        rcases lt_trichotomy a c with hac | hac | hac
        · exact Or.inr (by simp [hac])
        · subst hac
          simp only [lt_irrefl, if_false] at h ⊢
          exact charsLtB_conn as bs cs h
        · simp [not_lt_of_gt hac, hac] at h
      · rcases lt_trichotomy a c with hac | hac | hac
        · exact Or.inr (by simp [lt_trans hab hac])
        · subst hac
          exact Or.inr (by simp [hab])
        · simp [not_lt_of_gt hac, hac] at h

theorem keyDescRel_total {α : Type} (key : α → String) :
    ∀ a b : α, keyDescRel key a b ∨ keyDescRel key b a := by
  intro a b
  cases h : charsLtB (key a).data (key b).data
  · exact Or.inl h
  · exact Or.inr (charsLtB_asymm h)

theorem keyDescRel_trans {α : Type} (key : α → String) :
    ∀ a b c : α, keyDescRel key a b → keyDescRel key b c → keyDescRel key a c := by
  intro a b c hab hbc
  unfold keyDescRel at hab hbc ⊢
  cases h : charsLtB (key a).data (key c).data
  · rfl
  · rcases charsLtB_conn (key a).data (key b).data (key c).data h with h' | h'
    · rw [hab] at h'; cases h'
    · rw [hbc] at h'; cases h'

/-! ### Sortedness, permutation and stability of `sortByKeyDesc` -/

theorem sortByKeyDesc_perm {α : Type} (key : α → String) (l : List α) :
    List.Perm (sortByKeyDesc key l) l :=
  List.perm_insertionSort _ l

theorem sortByKeyDesc_pairwise {α : Type} (key : α → String) (l : List α) :
    (sortByKeyDesc key l).Pairwise (keyDescRel key) := by
  haveI : IsTotal α (keyDescRel key) := ⟨keyDescRel_total key⟩
  haveI : IsTrans α (keyDescRel key) := ⟨keyDescRel_trans key⟩
  exact List.sorted_insertionSort _ l

theorem filter_orderedInsert_key {α : Type} (key : α → String) (d : String) (x : α) :
    ∀ l : List α,
      (List.orderedInsert (keyDescRel key) x l).filter (fun z => key z == d)
        = if key x == d then x :: l.filter (fun z => key z == d)
          else l.filter (fun z => key z == d)
  | [] => by
      by_cases hx : key x = d <;>
        simp [List.orderedInsert, List.filter_cons, hx]
  | y :: ys => by
      by_cases hr : keyDescRel key x y
      · by_cases hx : key x = d <;> by_cases hy : key y = d <;>
          simp [List.orderedInsert, hr, List.filter_cons, hx, hy]
      · have hlt : charsLtB (key x).data (key y).data = true := by
          unfold keyDescRel at hr
          cases h : charsLtB (key x).data (key y).data
          · exact absurd h hr
          · rfl
        have hne : key y ≠ key x := by
          intro he
          rw [he, charsLtB_irrefl] at hlt
          cases hlt
        by_cases hx : key x = d
        · have hy : ¬ (key y = d) := fun he => hne (he.trans hx.symm)
          simp [List.orderedInsert, hr, List.filter_cons, hx, hy,
            filter_orderedInsert_key key d x ys]
        · by_cases hy : key y = d <;>
            simp [List.orderedInsert, hr, List.filter_cons, hx, hy,
              filter_orderedInsert_key key d x ys]

theorem sortByKeyDesc_filter_eq {α : Type} (key : α → String) (d : String) :
    ∀ l : List α,
      (sortByKeyDesc key l).filter (fun z => key z == d)
        = l.filter (fun z => key z == d)
  | [] => rfl
  | x :: xs => by
      have ih := sortByKeyDesc_filter_eq key d xs
      show (List.orderedInsert (keyDescRel key) x (sortByKeyDesc key xs)).filter
        (fun z => key z == d) = _
      rw [filter_orderedInsert_key key d x]
      by_cases hx : key x = d <;> simp [List.filter_cons, hx, ih]

/-! ### Bridge between `charsLtB` and the library order on `String` -/

theorem charsLtB_iff_lt : ∀ x y : List Char,
    charsLtB x y = true ↔ List.Lex (· < ·) x y
  | [], [] => iff_of_false (by simp [charsLtB]) (fun h => by cases h)
  | _ :: _, [] => iff_of_false (by simp [charsLtB]) (fun h => by cases h)
  | [], _ :: _ => iff_of_true rfl List.Lex.nil
  | a :: as, b :: bs => by
      simp only [charsLtB]
      rcases lt_trichotomy a b with h | h | h
      · exact iff_of_true (by simp [h]) (List.Lex.rel h)
      · subst h
        simp only [lt_irrefl, if_false]
        constructor
        · intro h'
          exact List.Lex.cons ((charsLtB_iff_lt as bs).mp h')
        · intro h'
          cases h' with
          | cons h'' => exact (charsLtB_iff_lt as bs).mpr h''
          | rel h'' => exact absurd h'' (lt_irrefl a)
      · refine iff_of_false (by simp [not_lt_of_gt h, h]) (fun h' => ?_)
        cases h' with
        | cons h'' => exact absurd h (lt_irrefl a)
        | rel h'' => exact absurd h (not_lt_of_gt h'')

theorem strLtB_iff {x y : String} : charsLtB x.data y.data = true ↔ x < y := by
  rw [String.lt_iff_toList_lt]
  exact charsLtB_iff_lt x.data y.data

theorem keyDescRel_iff {α : Type} (key : α → String) (a b : α) :
    keyDescRel key a b ↔ key b ≤ key a := by
  unfold keyDescRel
  rw [← not_lt]
  constructor
  · intro h hlt
    have ht := strLtB_iff.mpr hlt
    rw [h] at ht
    cases ht
  · intro h
    cases hc : charsLtB (key a).data (key b).data
    · rfl
    · exact absurd (strLtB_iff.mp hc) h

/-- A `YYYY-MM-DD`-shaped string starts with a digit, hence compares
strictly below the sentinel `"unknown"` in Python's string order. -/
theorem isYYYYMMDD_charsLt_unknown {s : String} (h : isYYYYMMDD s = true) :
    charsLtB s.data "unknown".data = true := by
  unfold isYYYYMMDD at h
  split at h
  · rename_i y1 y2 y3 y4 s1 m1 m2 s2 d1 d2 heq
    have h1 : isDigitC y1 = true := by
      simp only [Bool.and_eq_true] at h
      exact h.1.1.1.1.1.1.1.1.1
    have hu : y1 < 'u' := by
      simp only [isDigitC, Bool.and_eq_true, decide_eq_true_eq] at h1
      exact lt_of_le_of_lt h1.2 (by decide)
    rw [heq, show ("unknown".data : List Char)
      = ['u', 'n', 'k', 'n', 'o', 'w', 'n'] from rfl]
    simp [charsLtB, hu]
  · cases h

/-- Every failure branch of `generate_report` yields an explanatory string
starting with `"Error"`. -/
theorem generate_report_error {g : GroqOutcome} (hg : ∀ c, g ≠ GroqOutcome.ok c) :
    startsWithError (generate_report g) := by
  cases g with
  | ok c => exact absurd rfl (hg c)
  | httpError msg => rfl
  | timeout => rfl
  | unexpected msg => rfl

/-- After `_setup_collection`, the `"research_docs"` collection exists. -/
theorem setup_collection_exists (s : QdrantState) :
    ∃ p, get_collection (_setup_collection s) "research_docs" = some p := by
  unfold _setup_collection
  cases h : get_collection s "research_docs" with
  | some p => exact ⟨p, h⟩
  | none =>
      refine ⟨⟨384, Distance.cosine⟩, ?_⟩
      have h' : s.collections.find? (fun c => c.1 == "research_docs") = none := by
        unfold get_collection at h
        cases hf : s.collections.find? (fun c => c.1 == "research_docs")
        · rfl
        · rw [hf] at h; cases h
      unfold get_collection create_collection
      simp [List.find?_append, h']

/-- Lemma: `_setup_collection` is the identity on a state that already has the
collection. -/
theorem setup_collection_of_exists {s : QdrantState}
    (h : ∃ p, get_collection s "research_docs" = some p) :
    _setup_collection s = s := by
  obtain ⟨p, hp⟩ := h
  unfold _setup_collection
  rw [hp]

/-! ## The claims -/

/-- C7: if the arXiv API call fails (network error, non-success status,
timeout), `fetch_arxiv_papers` returns the empty list instead of raising,
and — the function consuming exactly one request outcome — performs no
retry. -/
theorem C7_fetch_failure_empty : fetch_arxiv_papers FetchOutcome.failure = [] :=
  rfl

/-- C8: running `_setup_collection` twice with identical parameters leaves
the collection state unchanged — the second call is a no-op (no error, no
duplicate collection). -/
theorem C8_setup_collection_idempotent (s : QdrantState) :
    _setup_collection (_setup_collection s) = _setup_collection s :=
  setup_collection_of_exists (setup_collection_exists s)

/-- C9: `store_in_qdrant` on an empty document list performs no embedding
computation and no upsert — the index state is returned unchanged, without
error. -/
theorem C9_store_empty_noop (embed : String → List ℚ) (s : QdrantState) :
    store_in_qdrant embed s [] = s :=
  rfl

/-- C5: when the fetcher yields zero documents, `run_full_research` returns
the error-kind result with the human-readable message
`"No papers found in arXiv"` and an empty sources list. -/
theorem C5_no_evidence (env : Env) (h : fetch_arxiv_papers env.arxiv = []) :
    run_full_research env =
      { status := "error"
      , message := some "No papers found in arXiv"
      , report := none
      , sources := []
      , total_papers := none
      , relevant_papers := none } := by
  unfold run_full_research
  rw [h]
  rfl

/-- Witness for C5 at the concrete input where the arXiv call fails. -/
theorem C5_no_evidence_witness :
    fetch_arxiv_papers ((⟨FetchOutcome.failure, none, GroqOutcome.timeout⟩ :
        Env).arxiv) = [] ∧
    run_full_research ⟨FetchOutcome.failure, none, GroqOutcome.timeout⟩ =
      { status := "error"
      , message := some "No papers found in arXiv"
      , report := none
      , sources := []
      , total_papers := none
      , relevant_papers := none } :=
  ⟨rfl, C5_no_evidence ⟨FetchOutcome.failure, none, GroqOutcome.timeout⟩ rfl⟩

/-- C6: when the summarization call fails (HTTP error, timeout, or
malformed response), `run_full_research` still returns a success-status
result whose report is the explanatory error message (starting with
`"Error"`), with sources still populated from the ranker output. -/
theorem C6_degraded_success (env : Env)
    (hp : fetch_arxiv_papers env.arxiv ≠ [])
    (hg : ∀ c, env.groq ≠ GroqOutcome.ok c) :
    (run_full_research env).status = "success" ∧
    (run_full_research env).report = some (generate_report env.groq) ∧
    startsWithError (generate_report env.groq) ∧
    (run_full_research env).sources = (search_relevant_docs env.qdrant 10).take 8 := by
  have hne : (fetch_arxiv_papers env.arxiv).isEmpty = false := by
    cases hl : fetch_arxiv_papers env.arxiv
    · exact absurd hl hp
    · rfl
  refine ⟨?_, ?_, generate_report_error hg, ?_⟩ <;>
    simp [run_full_research, hne]

/-- Witness for C6: one parsable arXiv entry, an empty hit pool, and a Groq
timeout. -/
theorem C6_degraded_success_witness :
    (run_full_research
        ⟨FetchOutcome.success
            "<entry><title>A</title><summary>a</summary><id>u1</id><published>2024-01-01T00:00:00Z</published>",
          some [], GroqOutcome.timeout⟩).status = "success" ∧
    (run_full_research
        ⟨FetchOutcome.success
            "<entry><title>A</title><summary>a</summary><id>u1</id><published>2024-01-01T00:00:00Z</published>",
          some [], GroqOutcome.timeout⟩).report
      = some (generate_report GroqOutcome.timeout) ∧
    startsWithError (generate_report GroqOutcome.timeout) ∧
    (run_full_research
        ⟨FetchOutcome.success
            "<entry><title>A</title><summary>a</summary><id>u1</id><published>2024-01-01T00:00:00Z</published>",
          some [], GroqOutcome.timeout⟩).sources
      = (search_relevant_docs (some []) 10).take 8 :=
  C6_degraded_success _ (by decide) (fun c h => nomatch h)

/-- C2: every document in a `search_relevant_docs` result scores strictly
above the relevance threshold 0.3; documents at or below it are dropped by
the gate. -/
theorem C2_relevance_gate (outcome : Option (List Hit)) (top_k : Nat)
    (doc : ScoredDoc) (hdoc : doc ∈ search_relevant_docs outcome top_k) :
    3 / 10 < doc.relevance_score := by
  cases outcome with
  | none => cases hdoc
  | some candidates =>
      unfold search_relevant_docs at hdoc
      have h1 : doc ∈ sortByKeyDesc (fun doc => doc.published_date)
          (gateSurvivors candidates top_k) :=
        List.mem_of_mem_take hdoc
      have h2 : doc ∈ gateSurvivors candidates top_k :=
        ((sortByKeyDesc_perm _ _).mem_iff).mp h1
      have h3 := (List.mem_filter.mp h2).2
      have h4 := of_decide_eq_true h3
      rwa [relevanceThreshold_eq] at h4

/-- Witness for C2 at a one-hit pool with score 1. -/
theorem C2_relevance_gate_witness :
    ((⟨"A", "a", "u1", "arXiv", "2024-01-01", 1⟩ : ScoredDoc) ∈
      search_relevant_docs
        (some [⟨"A", "a", "u1", "arXiv", some "2024-01-01", 1⟩]) 1) ∧
    3 / 10 < (⟨"A", "a", "u1", "arXiv", "2024-01-01", 1⟩ : ScoredDoc).relevance_score :=
  ⟨by decide,
    C2_relevance_gate (some [⟨"A", "a", "u1", "arXiv", some "2024-01-01", 1⟩]) 1
      ⟨"A", "a", "u1", "arXiv", "2024-01-01", 1⟩ (by decide)⟩

/-- C3: in every `search_relevant_docs` result, each adjacent pair with
both dates in known `YYYY-MM-DD` form is ordered most recent first, and
documents with equal dates keep the relative order of the preceding
(gate-filtered) step: the date sort is stable. -/
theorem C3_recency_order (outcome : Option (List Hit)) (top_k : Nat) :
    List.Chain'
      (fun a b => isYYYYMMDD a.published_date = true →
        isYYYYMMDD b.published_date = true →
        b.published_date ≤ a.published_date)
      (search_relevant_docs outcome top_k) ∧
    (∀ candidates, outcome = some candidates → ∀ d : String,
      (sortByKeyDesc (fun doc => doc.published_date)
          (gateSurvivors candidates top_k)).filter
          (fun doc => doc.published_date == d)
        = (gateSurvivors candidates top_k).filter
          (fun doc => doc.published_date == d)) := by
  constructor
  · cases outcome with
    | none => exact List.chain'_nil
    | some candidates =>
        have hs := sortByKeyDesc_pairwise
          (fun doc : ScoredDoc => doc.published_date)
          (gateSurvivors candidates top_k)
        have ht := hs.sublist (List.take_sublist top_k _)
        exact (ht.imp fun hab => fun _ _ =>
          (keyDescRel_iff (fun doc : ScoredDoc => doc.published_date) _ _).mp hab).chain'
  · intro candidates hcand d
    exact sortByKeyDesc_filter_eq (fun doc : ScoredDoc => doc.published_date) d _

/-- Witness for C3 on a three-hit pool with a duplicated date. -/
theorem C3_recency_order_witness :
    List.Chain'
      (fun a b => isYYYYMMDD a.published_date = true →
        isYYYYMMDD b.published_date = true →
        b.published_date ≤ a.published_date)
      (search_relevant_docs
        (some [⟨"A", "a", "u1", "arXiv", some "2024-01-01", 1⟩,
               ⟨"B", "b", "u2", "arXiv", some "2024-05-02", 1⟩,
               ⟨"C", "c", "u3", "arXiv", some "2024-01-01", 1⟩]) 2) ∧
    (sortByKeyDesc (fun doc => doc.published_date)
        (gateSurvivors [⟨"A", "a", "u1", "arXiv", some "2024-01-01", 1⟩,
               ⟨"B", "b", "u2", "arXiv", some "2024-05-02", 1⟩,
               ⟨"C", "c", "u3", "arXiv", some "2024-01-01", 1⟩] 2)).filter
        (fun doc => doc.published_date == "2024-01-01")
      = (gateSurvivors [⟨"A", "a", "u1", "arXiv", some "2024-01-01", 1⟩,
               ⟨"B", "b", "u2", "arXiv", some "2024-05-02", 1⟩,
               ⟨"C", "c", "u3", "arXiv", some "2024-01-01", 1⟩] 2).filter
        (fun doc => doc.published_date == "2024-01-01") := by
  have h := C3_recency_order
    (some [⟨"A", "a", "u1", "arXiv", some "2024-01-01", 1⟩,
           ⟨"B", "b", "u2", "arXiv", some "2024-05-02", 1⟩,
           ⟨"C", "c", "u3", "arXiv", some "2024-01-01", 1⟩]) 2
  exact ⟨h.1, h.2 _ rfl "2024-01-01"⟩

/-- C4: a `search_relevant_docs` result never exceeds `top_k` documents;
the underlying index is queried with limit `top_k * 2`; and when at most
`top_k` documents survive the gate, all survivors are returned (no padding,
no error). -/
theorem C4_truncation (outcome : Option (List Hit)) (top_k : Nat) :
    (search_relevant_docs outcome top_k).length ≤ top_k ∧
    (∀ candidates, outcome = some candidates →
      search_relevant_docs outcome top_k
        = (sortByKeyDesc (fun doc => doc.published_date)
            (((qdrantSearch candidates (top_k * 2)).map toScoredDoc).filter
              (fun doc => relevanceThreshold < doc.relevance_score))).take top_k) ∧
    (∀ candidates, outcome = some candidates →
      (gateSurvivors candidates top_k).length ≤ top_k →
      List.Perm (search_relevant_docs outcome top_k)
        (gateSurvivors candidates top_k)) := by
  refine ⟨?_, ?_, ?_⟩
  · cases outcome with
    | none => exact Nat.zero_le top_k
    | some candidates =>
        unfold search_relevant_docs
        exact List.length_take_le top_k _
  · intro candidates hcand
    subst hcand
    rfl
  · intro candidates hcand hlen
    subst hcand
    have hperm := sortByKeyDesc_perm (fun doc : ScoredDoc => doc.published_date)
      (gateSurvivors candidates top_k)
    have hlen' : (sortByKeyDesc (fun doc : ScoredDoc => doc.published_date)
        (gateSurvivors candidates top_k)).length ≤ top_k := by
      rw [hperm.length_eq]
      exact hlen
    show List.Perm ((sortByKeyDesc (fun doc : ScoredDoc => doc.published_date)
        (gateSurvivors candidates top_k)).take top_k) (gateSurvivors candidates top_k)
    rw [List.take_of_length_le hlen']
    exact hperm

/-- Witness for C4 at a one-hit pool and `top_k = 1`. -/
theorem C4_truncation_witness :
    (search_relevant_docs
        (some [⟨"A", "a", "u1", "arXiv", some "2024-01-01", 1⟩]) 1).length ≤ 1 ∧
    search_relevant_docs (some [⟨"A", "a", "u1", "arXiv", some "2024-01-01", 1⟩]) 1
      = (sortByKeyDesc (fun doc => doc.published_date)
          (((qdrantSearch [⟨"A", "a", "u1", "arXiv", some "2024-01-01", 1⟩]
              (1 * 2)).map toScoredDoc).filter
            (fun doc => relevanceThreshold < doc.relevance_score))).take 1 ∧
    List.Perm
      (search_relevant_docs
        (some [⟨"A", "a", "u1", "arXiv", some "2024-01-01", 1⟩]) 1)
      (gateSurvivors [⟨"A", "a", "u1", "arXiv", some "2024-01-01", 1⟩] 1) := by
  have h := C4_truncation (some [⟨"A", "a", "u1", "arXiv", some "2024-01-01", 1⟩]) 1
  exact ⟨h.1, h.2.1 _ rfl, h.2.2 _ rfl (by decide)⟩

/-- C10: in every `search_relevant_docs` result, a document whose
`published_date` is the sentinel `"unknown"` never appears after a document
with a known `YYYY-MM-DD` date — the lexicographic recency sort puts
`"unknown"` (which compares greater than any digit-initial string) first. -/
theorem C10_unknown_first (outcome : Option (List Hit)) (top_k : Nat) :
    (search_relevant_docs outcome top_k).Pairwise
      (fun a b => isYYYYMMDD a.published_date = true →
        b.published_date ≠ "unknown") := by
  cases outcome with
  | none => exact List.Pairwise.nil
  | some candidates =>
      have hs := sortByKeyDesc_pairwise
        (fun doc : ScoredDoc => doc.published_date)
        (gateSurvivors candidates top_k)
      have ht := hs.sublist (List.take_sublist top_k _)
      refine ht.imp ?_
      intro a b hab hya hbu
      have hab' : charsLtB a.published_date.data b.published_date.data = false := hab
      rw [hbu] at hab'
      rw [isYYYYMMDD_charsLt_unknown hya] at hab'
      cases hab'

/-- The body of a parsed fetch entry always carries `source = "arXiv"`. -/
theorem parseEntry_source {e : String} {p : Paper} (h : parseEntry e = some p) :
    p.source = "arXiv" := by
  unfold parseEntry at h
  cases h1 : extractTag "<title>" "</title>" e <;> rw [h1] at h
  · cases h
  · rename_i t
    cases h2 : extractTag "<summary>" "</summary>" e <;> rw [h2] at h
    · cases h
    · rename_i s'
      cases h3 : extractTag "<id>" "</id>" e <;> rw [h3] at h
      · cases h
      · rename_i l
        cases h4 : extractTag "<published>" "</published>" e <;> rw [h4] at h
        · cases h
        · rename_i pb
          have h' : some
              { title := normWS (pyStrip t)
              , content := pyTake 800 (normWS (pyStrip s'))
              , url := pyStrip l
              , source := "arXiv"
              , published_date := (pySplit "T" (pyStrip pb)).headD "" : Paper }
              = some p := h
          rw [← Option.some_inj.mp h']

/-- C1 (counterexample): on a response whose entry has an empty
`<title></title>` and a `<published>` value that is neither `YYYY-MM-DD`
shaped nor `"unknown"`, `fetch_arxiv_papers` produces a document violating
the claimed field invariants. -/
theorem C1_counterexample :
    ¬ (∀ p ∈ fetch_arxiv_papers (FetchOutcome.success
        "<entry><title></title><summary>abc</summary><id>http://arxiv.org/abs/1</id><published>sometime</published>"),
        p.title ≠ "" ∧ p.content ≠ "" ∧ p.url ≠ "" ∧
        (isYYYYMMDD p.published_date = true ∨ p.published_date = "unknown")) := by
  intro h
  have hp := h ⟨"", "abc", "http://arxiv.org/abs/1", "arXiv", "sometime"⟩ (by decide)
  exact hp.1 rfl

/-- C1 (amended): every document of a `fetch_arxiv_papers` result comes
from one fully parsed entry — an entry missing any of the four required
tags is dropped entirely, never producing a partial record — and carries
`source = "arXiv"`; the individual text fields, however, may be empty, and
`published_date` is whatever precedes the first `'T'` of the `<published>`
text, not validated against `YYYY-MM-DD`. -/
theorem C1_full_parse (body : String) (p : Paper)
    (hp : p ∈ fetch_arxiv_papers (FetchOutcome.success body)) :
    p.source = "arXiv" ∧
    ∃ e ∈ (pySplit "<entry>" body).drop 1, parseEntry e = some p := by
  unfold fetch_arxiv_papers at hp
  have h1 : p ∈ ((pySplit "<entry>" body).drop 1).filterMap parseEntry :=
    ((sortByKeyDesc_perm _ _).mem_iff).mp hp
  obtain ⟨e, he, hpe⟩ := List.mem_filterMap.mp h1
  exact ⟨parseEntry_source hpe, e, he, hpe⟩

/-- Witness for C1 (amended) at a well-formed single-entry response. -/
theorem C1_full_parse_witness :
    ((⟨"A", "a", "u1", "arXiv", "2024-01-01"⟩ : Paper) ∈
      fetch_arxiv_papers (FetchOutcome.success
        "<entry><title>A</title><summary>a</summary><id>u1</id><published>2024-01-01T00:00:00Z</published>")) ∧
    ((⟨"A", "a", "u1", "arXiv", "2024-01-01"⟩ : Paper).source = "arXiv" ∧
      ∃ e ∈ (pySplit "<entry>"
          "<entry><title>A</title><summary>a</summary><id>u1</id><published>2024-01-01T00:00:00Z</published>").drop 1,
        parseEntry e = some ⟨"A", "a", "u1", "arXiv", "2024-01-01"⟩) :=
  ⟨by decide, C1_full_parse _ _ (by decide)⟩

end DeskResearch
